import Mathlib

/-!
Verification of the ClearProxy proxy-checking pipeline (`src/lib/sdk.js`,
`src/bin/clearproxy.js`) against its natural-language specification.

The JavaScript source is shallowly embedded: strings are lists of
characters, JS values reaching the pipeline are modelled by small inductive
types, platform functions (`JSON.parse`, the CSV parser, the file system,
stdin, the remote HTTP service) are oracle parameters collected in `Env`,
and JS exceptions are `Except` errors.  Each definition mirrors one source
function and is annotated with the source location it embeds.
-/

namespace ClearProxy

/-- JS strings, modelled as lists of characters. -/
abbrev Str := List Char

/-- A primitive JS value as it appears in proxy records (string or number).
`undefined` is modelled by `Option.none` at each use site. -/
inductive JsPrim
  | str (s : Str)
  | num (n : Int)
deriving DecidableEq

/-- Decimal rendering of a JS number inside a template literal. -/
def intRepr (n : Int) : Str := (toString n).data

/-- Template-literal interpolation of a possibly-undefined value:
`undefined` renders as the literal text `undefined` (the quirk kept by the
YAML renderer, spec section 4.5). -/
def jsShowU : Option JsPrim → Str
  | none => "undefined".data
  | some (.str s) => s
  | some (.num n) => intRepr n

/-- JS truthiness of a possibly-absent primitive: absent, the empty string
and the number 0 are falsy, everything else is truthy. -/
def truthyJ : Option JsPrim → Bool
  | none => false
  | some (.str s) => !s.isEmpty
  | some (.num n) => n != 0

/-- JS truthiness of a possibly-absent string (used for `result_url`,
`jobId`, the entries kept by `filter(Boolean)`). -/
def truthyStrOpt : Option Str → Bool
  | none => false
  | some s => !s.isEmpty

/-- JS truthiness of a possibly-absent boolean (`p.proxy?.hasAuth`). -/
def truthyB : Option Bool → Bool
  | none => false
  | some b => b

/-- The whitespace characters removed by `String.prototype.trim` (ASCII
subset; the inputs of this pipeline contain no exotic Unicode spaces). -/
def isWS (c : Char) : Bool := c == ' ' || c == '\t' || c == '\n' || c == '\r'

/-- JS `s.trim()`. -/
def trim (s : Str) : Str :=
  ((s.dropWhile isWS).reverse.dropWhile isWS).reverse

/-- Split on a newline character, keeping empty pieces (first half of the
JS `split(/\r?\n/)` in `parseProxies`, src/lib/sdk.js lines 495 and 530). -/
def splitNl : Str → List Str
  | [] => [[]]
  | c :: rest =>
    if c = '\n' then [] :: splitNl rest
    else
      match splitNl rest with
      | cur :: done => (c :: cur) :: done
      | [] => [[c]]

/-- Remove the carriage return that preceded each newline: every piece but
the last was followed by `\n` in the source text, so a trailing `\r` there
was part of the `\r?\n` separator. -/
def stripCRs : List Str → List Str
  | [] => []
  | [l] => [l]
  | l :: rest => (if l.getLast? = some '\r' then l.dropLast else l) :: stripCRs rest

/-- JS `s.split(/\r?\n/)`. -/
def splitLines (s : Str) : List Str := stripCRs (splitNl s)

/-- Case-insensitive "starts with" over the ASCII range, the effect of a
`/^pat/i` regex test (src/lib/sdk.js line 469). -/
def ciStarts (pat s : Str) : Bool :=
  (s.take pat.length).map Char.toLower == pat

/-- The scheme strip of `normalizeProxy` (src/lib/sdk.js line 469):
`p.replace(/^(https?|socks[45]):\/\//i, "")`.  The regex is anchored at the
very start of the raw string and removes at most one scheme. -/
def stripScheme (s : Str) : Str :=
  if ciStarts "http://".data s then s.drop 7
  else if ciStarts "https://".data s then s.drop 8
  else if ciStarts "socks4://".data s then s.drop 9
  else if ciStarts "socks5://".data s then s.drop 9
  else s

/-- Does a string begin (case-insensitively) with one of the four scheme
prefixes the Normalizer knows about? -/
def startsWithScheme (s : Str) : Bool :=
  ciStarts "http://".data s || ciStarts "https://".data s ||
    ciStarts "socks4://".data s || ciStarts "socks5://".data s

/-- A structured proxy record as accepted by `normalizeProxy`
(src/lib/sdk.js lines 473-477); each field may be absent. -/
structure StructuredProxy where
  host : Option JsPrim := none
  port : Option JsPrim := none
  username : Option JsPrim := none
  password : Option JsPrim := none
deriving DecidableEq

/-- A raw element of a proxy input list: a JS string, a structured record,
a bare number, or null/undefined. -/
inductive ProxyRaw
  | nullish
  | num (n : Int)
  | str (s : Str)
  | record (p : StructuredProxy)
deriving DecidableEq

/-- `normalizeProxy` (src/lib/sdk.js lines 464-480).
* falsy input (`null`, `undefined`, `""`, `0`) returns null;
* a string gets one anchored scheme strip, then a trim;
* a record with truthy `host` and `port` renders `host:port`, prefixed
  with `username:password@` when both credentials are truthy;
* anything else (including a truthy number, whose `.host` is undefined)
  returns null. -/
def normalizeProxy : ProxyRaw → Option Str
  | .nullish => none
  | .num _ => none
  | .str s =>
    if s.isEmpty then none
    else some (trim (stripScheme s))
  | .record p =>
    if truthyJ p.host && truthyJ p.port then
      some (if truthyJ p.username && truthyJ p.password then
              jsShowU p.username ++ ":".data ++ jsShowU p.password ++ "@".data ++
                (jsShowU p.host ++ ":".data ++ jsShowU p.port)
            else jsShowU p.host ++ ":".data ++ jsShowU p.port)
    else none

/-! ### Input ingestion (`parseProxies`, src/lib/sdk.js lines 442-532) -/

/-- What `JSON.parse` can hand back to `parseProxies` (src/lib/sdk.js
lines 510-519): a top-level array of proxy entries, an object exposing a
`proxies` array, or any other JSON shape. -/
inductive JsonShape
  | arr (l : List ProxyRaw)
  | objProxies (l : List ProxyRaw)
  | other
deriving DecidableEq

/-- Error kind raised by either format decoder. -/
inductive ParseKind
  | json
  | csv
deriving DecidableEq

/-- Errors thrown by `parseProxies`:
* `notFound none` — `"No input found (file or stdin)."` (line 499);
* `notFound (some p)` — `` `File not found: ${input}` `` (line 504);
* `emptyFile p` — `` `Empty file: ${input}` `` (line 506);
* `parse k` — `"Failed to parse JSON/CSV: ..."` (lines 517, 526),
  which also covers the rewrapped `"Invalid JSON proxy format"` (515);
* `typeError` — the uncaught `TypeError` from `path.resolve(cwd, undefined)`
  (line 503) reached when stdin is readable but empty. -/
inductive PError
  | notFound (path : Option Str)
  | emptyFile (path : Str)
  | parse (k : ParseKind)
  | typeError
deriving DecidableEq

/-- Does an error carry the `NotFoundError` kind of the spec taxonomy? -/
def isNotFoundPE : PError → Bool
  | .notFound _ => true
  | _ => false

/-- The argument shapes `parseProxies` distinguishes: an array, a string,
or an absent (`undefined`) input. -/
inductive PPInput
  | arr (l : List ProxyRaw)
  | strv (s : Str)
  | absent
deriving DecidableEq

/-- `!input` for the non-array shapes: `undefined` and `""` are falsy. -/
def inputFalsy : PPInput → Bool
  | .absent => true
  | .strv s => s.isEmpty
  | .arr _ => false

/-- Detected file serialization format. -/
inductive FileFormat
  | json
  | csv
  | txt
deriving DecidableEq

/-- `detectFormat` (src/lib/sdk.js lines 449-456): extension first, then
content sniffing (leading `[` means JSON, a comma means CSV, else text). -/
def detectFormat (filePath content : Str) : FileFormat :=
  if ".json".data.isSuffixOf filePath then .json
  else if ".csv".data.isSuffixOf filePath then .csv
  else if ".txt".data.isSuffixOf filePath then .txt
  else if (trim content).head? = some '[' then .json
  else if content.contains ',' then .csv
  else .txt

/-! ### Verdicts and the result payload (spec section 3) -/

/-- The proxy sub-record embedded in a verdict returned by the remote
service (`{host, port, hasAuth, username?, password?}`). -/
structure ProxyRec where
  host : Option JsPrim := none
  port : Option JsPrim := none
  hasAuth : Option Bool := none
  username : Option JsPrim := none
  password : Option JsPrim := none
deriving DecidableEq

/-- One per-proxy verdict object as consumed by the Aggregator and the
Renderer; every field the code reads may be absent. -/
structure Verdict where
  proxy : Option ProxyRec := none
  status : Option JsPrim := none
  country : Option JsPrim := none
  isp : Option JsPrim := none
  responseTime : Option JsPrim := none
deriving DecidableEq

/-- A per-URL entry of the custom validation report. -/
structure CuvEntry where
  url : Option JsPrim := none
  success_count : Option Int := none
  failed_count : Option Int := none
  success_rate : Option JsPrim := none
  successful_proxies : Option (List Str) := none
deriving DecidableEq

/-- The ad-hoc polymorphic `custom_url_validation` value: either a bare
array of entries or an object exposing `per_url_summary` and/or `results`
(spec section 9). -/
inductive CuvShape
  | arr (entries : List CuvEntry)
  | obj (per_url_summary : Option (List CuvEntry)) (results : Option (List CuvEntry))
deriving DecidableEq

/-- An opaque JSON map (the `summary` / `metadata` blobs, passed through). -/
abbrev JsMap := List (Str × JsPrim)

/-- The JSON body of the submission response (`data`, src/lib/sdk.js
line 154): the result pointer plus an optional echoed validation blob. -/
structure SubmitResponse where
  result_url : Option Str := none
  custom_url_validation : Option CuvShape := none
deriving DecidableEq

/-- The JSON payload fetched from `result_url` (`resultData`, line 164). -/
structure ResultPayload where
  summary : Option JsMap := none
  metadata : Option JsMap := none
  proxies : Option (List Verdict) := none
  custom_url_validation : Option CuvShape := none
deriving DecidableEq

/-- The platform oracles `parseProxies` and `ClearProxy.check` interact
with.  File system, stdin, `JSON.parse` and the CSV parser are platform
collaborators; the remote service's two HTTP responses are the oracles of
the Check Orchestrator (spec section 6).  `none` from a parser oracle means
the parser threw. -/
structure Env where
  genJobId : Str := "sdk_a1b2c3d4e_1700000000000".data
  stdin : Option Str := none
  fs : Str → Option Str := fun _ => none
  jsonParse : Str → Option JsonShape := fun _ => none
  csvParse : Str → Option (List StructuredProxy) := fun _ => none
  submitOk : Bool := true
  submitStatus : Nat := 200
  submitBody : Str := []
  submitJson : SubmitResponse := {}
  resultOk : Bool := true
  resultStatus : Nat := 200
  resultJsonOk : Bool := true
  resultJson : ResultPayload := {}

/-- `input.map(normalizeProxy).filter(Boolean)` — normalization followed by
the truthiness filter that drops nulls and empty strings. -/
def normFilter (l : List ProxyRaw) : List (Option Str) :=
  (l.map normalizeProxy).filter truthyStrOpt

/-- The file-path branch of `parseProxies` (src/lib/sdk.js lines 503-531):
resolve, check existence, read, reject empty content, detect the format and
decode.  The JSON and CSV paths drop falsy tokens; the plain-text path maps
each non-empty line through the Normalizer with no filter. -/
def filePathBranch (s : Str) (env : Env) : Except PError (List (Option Str)) :=
  match env.fs s with
  | none => .error (.notFound (some s))
  | some raw =>
    let content := trim raw
    if content.isEmpty then .error (.emptyFile s)
    else
      match detectFormat s content with
      | .json =>
        match env.jsonParse content with
        | none => .error (.parse .json)
        | some (.arr l) => .ok (normFilter l)
        | some (.objProxies l) => .ok (normFilter l)
        | some .other => .error (.parse .json)
      | .csv =>
        match env.csvParse content with
        | none => .error (.parse .csv)
        | some recs => .ok (normFilter (recs.map ProxyRaw.record))
      | .txt =>
        .ok (((splitLines content).filter (fun l => !l.isEmpty)).map
              (fun l => normalizeProxy (.str l)))

/-- `parseProxies` (src/lib/sdk.js lines 486-532).
* Array input: normalize each element, drop falsy results.
* Falsy input: try to read stdin; an unreadable stream throws
  `notFound none`; a non-empty stream yields its non-empty lines mapped
  through the Normalizer *without* dropping falsy results; an empty stream
  falls through the `if (stdin)` guard into the file-path code, where
  `path.resolve(cwd, undefined)` throws a `TypeError` for absent input.
* String input: the file-path branch. -/
def parseProxies (input : PPInput) (env : Env) : Except PError (List (Option Str)) :=
  match input with
  | .arr l => .ok (normFilter l)
  | _ =>
    let viaStdin : Option (Except PError (List (Option Str))) :=
      if inputFalsy input then
        match env.stdin with
        | none => some (.error (.notFound none))
        | some s =>
          let t := trim s
          if t.isEmpty then none
          else some (.ok (((splitLines t).filter (fun l => !l.isEmpty)).map
                           (fun l => normalizeProxy (.str l))))
      else none
    match viaStdin with
    | some r => r
    | none =>
      match input with
      | .strv s => filePathBranch s env
      | _ => .error .typeError

/-! ### Output rendering (`formatOutput`, src/lib/sdk.js lines 540-581) -/

/-- An element of the list handed to `formatOutput`: the simple path
special-cases plain strings, everything else is a verdict object. -/
inductive FVal
  | str (s : Str)
  | obj (v : Verdict)
deriving DecidableEq

/-- Rendering-time failures: `invalidInput` is the
`"Invalid proxy data (not array)"` throw (unreachable in this typed
embedding, kept for the error taxonomy), `unsupportedFormat` the final
`` `Unsupported format: ${format}` `` throw, and `typeError` the JS
`TypeError` raised by `p.proxy.host` when `p.proxy` is undefined. -/
inductive FormatError
  | invalidInput
  | unsupportedFormat (f : Str)
  | typeError
deriving DecidableEq

/-- Opening brace character (spelled via its code point). -/
def lbrace : Char := Char.ofNat 123

/-- Closing brace character (spelled via its code point). -/
def rbrace : Char := Char.ofNat 125

/-- Minimal JSON string escaping, enough for `JSON.stringify` on the
token and verdict strings this pipeline produces. -/
def jsonEscape (s : Str) : Str :=
  s.flatMap fun c =>
    if c = '"' then ['\\', '"']
    else if c = '\\' then ['\\', '\\']
    else if c = '\n' then ['\\', 'n']
    else if c = '\r' then ['\\', 'r']
    else if c = '\t' then ['\\', 't']
    else [c]

/-- A JSON string literal. -/
def jsonStrLit (s : Str) : Str := '"' :: (jsonEscape s ++ ['"'])

/-- A JSON rendering of a primitive. -/
def jsonPrim : JsPrim → Str
  | .str s => jsonStrLit s
  | .num n => intRepr n

/-- `n` spaces of indentation. -/
def indentS (n : Nat) : Str := List.replicate n ' '

/-- `JSON.stringify(array, null, 2)` layout for already-serialized items
sitting at indentation `ind`. -/
def jsonArrBlock (ind : Nat) (items : List Str) : Str :=
  if items.isEmpty then "[]".data
  else
    "[\n".data ++
      List.intercalate (",\n".data) (items.map (fun it => indentS (ind + 2) ++ it)) ++
      "\n".data ++ indentS ind ++ "]".data

/-- `JSON.stringify(object, null, 2)` layout for already-serialized
members sitting at indentation `ind`. -/
def jsonObjBlock (ind : Nat) (members : List (Str × Str)) : Str :=
  if members.isEmpty then [lbrace, rbrace]
  else
    [lbrace, '\n'] ++
      List.intercalate (",\n".data)
        (members.map (fun m => indentS (ind + 2) ++ jsonStrLit m.1 ++ ": ".data ++ m.2)) ++
      ['\n'] ++ indentS ind ++ [rbrace]

/-- A present field serializes; an undefined one is omitted (the
`JSON.stringify` rule). -/
def optMember (name : Str) : Option JsPrim → List (Str × Str)
  | none => []
  | some p => [(name, jsonPrim p)]

/-- JSON layout of the proxy sub-record. -/
def proxyRecJson (ind : Nat) (pr : ProxyRec) : Str :=
  jsonObjBlock ind
    (optMember "host".data pr.host ++ optMember "port".data pr.port ++
      (match pr.hasAuth with
       | none => []
       | some b => [("hasAuth".data, (if b then "true" else "false").data)]) ++
      optMember "username".data pr.username ++ optMember "password".data pr.password)

/-- JSON layout of one verdict object. -/
def verdictJson (ind : Nat) (v : Verdict) : Str :=
  jsonObjBlock ind
    ((match v.proxy with
      | none => []
      | some pr => [("proxy".data, proxyRecJson (ind + 2) pr)]) ++
      optMember "status".data v.status ++ optMember "country".data v.country ++
      optMember "isp".data v.isp ++ optMember "responseTime".data v.responseTime)

/-- JSON layout of one renderer input element. -/
def fvalJson (ind : Nat) : FVal → Str
  | .str s => jsonStrLit s
  | .obj v => verdictJson ind v

/-- The simple projection of one element (src/lib/sdk.js lines 544-550):
strings pass through; objects render `auth + host:port` where the
credential prefix appears only when `p.proxy?.hasAuth` is truthy, and
optional chaining turns a missing proxy record into the text `undefined`. -/
def simpleLine : FVal → Str
  | .str s => s
  | .obj v =>
    let auth :=
      match v.proxy with
      | some pr =>
        if truthyB pr.hasAuth then
          jsShowU pr.username ++ ":".data ++ jsShowU pr.password ++ "@".data
        else []
      | none => []
    auth ++ jsShowU (v.proxy.bind (fun pr => pr.host)) ++ ":".data ++
      jsShowU (v.proxy.bind (fun pr => pr.port))

/-- `lines.join("\n")`. -/
def joinNl (lines : List Str) : Str := List.intercalate "\n".data lines

/-- One six-line YAML block (src/lib/sdk.js lines 560-568); `p.proxy.host`
has no optional chaining, so a missing proxy record throws. -/
def yamlBlock : FVal → Except FormatError Str
  | .str _ => .error .typeError
  | .obj v =>
    match v.proxy with
    | none => .error .typeError
    | some pr =>
      .ok (joinNl
        [ "- host: ".data ++ jsShowU pr.host,
          "  port: ".data ++ jsShowU pr.port,
          "  status: ".data ++ jsShowU v.status,
          "  country: ".data ++ jsShowU v.country,
          "  isp: ".data ++ jsShowU v.isp,
          "  responseTime: ".data ++ jsShowU v.responseTime ])

/-- One text line `host:port (country, responseTime)` (line 576); again no
optional chaining on `p.proxy`. -/
def txtLine : FVal → Except FormatError Str
  | .str _ => .error .typeError
  | .obj v =>
    match v.proxy with
    | none => .error .typeError
    | some pr =>
      .ok (jsShowU pr.host ++ ":".data ++ jsShowU pr.port ++ " (".data ++
        jsShowU v.country ++ ", ".data ++ jsShowU v.responseTime ++ ")".data)

/-- `formatOutput` (src/lib/sdk.js lines 540-581).  The simple path builds
the projected lines and then runs a `json`/`yaml`/`txt` chain whose final
fallback *also* joins the lines — no throw.  The full path pretty-prints
JSON, renders the YAML or text blocks, and only its final fallback throws
`Unsupported format`. -/
def formatOutput (proxies : List FVal) (format : Str) (simple : Bool) :
    Except FormatError Str :=
  if simple then
    let lines := proxies.map simpleLine
    if format = "json".data then .ok (jsonArrBlock 0 (lines.map jsonStrLit))
    else if format = "yaml".data then .ok (joinNl lines)
    else if format = "txt".data then .ok (joinNl lines)
    else .ok (joinNl lines)
  else
    if format = "json".data then .ok (jsonArrBlock 0 (proxies.map (fvalJson 2)))
    else if format = "yaml".data then
      match proxies.mapM yamlBlock with
      | .ok blocks => .ok (joinNl blocks)
      | .error e => .error e
    else if format = "txt".data then
      match proxies.mapM txtLine with
      | .ok ls => .ok (joinNl ls)
      | .error e => .error e
    else .error (.unsupportedFormat format)

/-! ### Result aggregation (src/lib/sdk.js lines 166-184, 276-334) -/

/-- The `CheckResult` object assembled at the end of `ClearProxy.check`
(src/lib/sdk.js lines 171-178). -/
structure CheckResult where
  summary : JsMap := []
  metadata : JsMap := []
  proxies : List Verdict := []
  working : List Verdict := []
  failed : List Verdict := []
  custom_url_validation : Option CuvShape := none
deriving DecidableEq

/-- `p.status === s` for a string `s` — strict string equality. -/
def isStatus (s : Str) (v : Verdict) : Bool :=
  decide (v.status = some (JsPrim.str s))

/-- Assembly of the result object (src/lib/sdk.js lines 166-178):
missing `summary`/`metadata`/`proxies` default to empty, the two views are
`filter` projections guarded by optional chaining, and the validation blob
prefers the result payload over the submission response. -/
def buildResult (resultData : ResultPayload) (data : SubmitResponse) : CheckResult :=
  { summary := resultData.summary.getD []
    metadata := resultData.metadata.getD []
    proxies := resultData.proxies.getD []
    working := (resultData.proxies.map (fun l => l.filter (isStatus "working".data))).getD []
    failed := (resultData.proxies.map (fun l => l.filter (isStatus "failed".data))).getD []
    custom_url_validation :=
      match resultData.custom_url_validation with
      | some c => some c
      | none => data.custom_url_validation }

/-- The shared shape dispatch of `filterByCustomUrl` and
`getCustomUrlSummary` (src/lib/sdk.js lines 281-283, 313-315):
`per_url_summary || results || (isArray ? value : [])`.  An empty array
stored under `per_url_summary` is truthy in JS and therefore wins. -/
def perUrlResults : CuvShape → List CuvEntry
  | .arr l => l
  | .obj (some l) _ => l
  | .obj none (some l) => l
  | .obj none none => []

/-- `x || 0` for the per-entry counters. -/
def jsNumOrZero : Option Int → Int
  | none => 0
  | some n => n

/-- `((num / den) * 100).toFixed(2) + "%"` for `den > 0`, modelled in
exact arithmetic rounding half up on the third decimal; JS computes the
same digits except for binary-float tie corner cases. -/
def pctString (num den : Int) : Str :=
  let scaled := (num * 10000 * 2 + den) / (den * 2)
  intRepr (scaled / 100) ++ ".".data ++
    (if scaled % 100 < 10 then "0".data else []) ++ intRepr (scaled % 100) ++ "%".data

/-- One per-URL projection of the summary. -/
structure PerUrlProj where
  url : Option JsPrim := none
  success_count : Option Int := none
  failed_count : Option Int := none
  success_rate : Option JsPrim := none
deriving DecidableEq

/-- The summary object returned by `getCustomUrlSummary`. -/
structure CuvSummary where
  total_urls : Nat := 0
  total_proxies_tested : Int := 0
  total_success : Int := 0
  total_failed : Int := 0
  overall_success_rate : Str := []
  per_url : List PerUrlProj := []
deriving DecidableEq

/-- `ClearProxy.getCustomUrlSummary` (src/lib/sdk.js lines 308-334):
null when the result has no validation blob; otherwise fold the
`success_count`/`failed_count` totals, guard the rate against a zero
denominator with the literal `"0.00%"`, and project each entry in order. -/
def getCustomUrlSummary (result : CheckResult) : Option CuvSummary :=
  match result.custom_url_validation with
  | none => none
  | some c =>
    let perUrl := perUrlResults c
    let totalSuccess := perUrl.foldl (fun sum r => sum + jsNumOrZero r.success_count) 0
    let totalFailed := perUrl.foldl (fun sum r => sum + jsNumOrZero r.failed_count) 0
    let totalTested := totalSuccess + totalFailed
    some
      { total_urls := perUrl.length
        total_proxies_tested := totalTested
        total_success := totalSuccess
        total_failed := totalFailed
        overall_success_rate :=
          if totalTested > 0 then pctString totalSuccess totalTested else "0.00%".data
        per_url := perUrl.map (fun r =>
          { url := r.url, success_count := r.success_count,
            failed_count := r.failed_count, success_rate := r.success_rate }) }

/-! ### The Check Orchestrator (`ClearProxy.check`, src/lib/sdk.js
lines 60-184)

The orchestration is sequential apart from the progress channel, so it is
modelled as a function from the caller's input, the options and the
environment oracles to the pair of (the ordered trace of observable
network/resource events, the returned value or thrown error).  The trace
records exactly: the submission request going out, its response arriving
(`await fetch`, line 112), the WebSocket construction (line 132) and the
`ws.close()` of the `finally` block (line 181). -/

/-- One custom-URL rule as supplied by the caller (spec `CustomUrlRule`);
validation only inspects `url`, the rest is forwarded opaquely. -/
structure CustomUrlCfg where
  url : Option JsPrim := none
  requiredStatusCodes : List Int := []
  requiredText : Option Str := none
  caseSensitive : Bool := false
deriving DecidableEq

/-- The options bag of `check` (src/lib/sdk.js lines 61-68). -/
structure CheckOptions where
  region : Option Str := none
  timeout : Int := 4000
  type : Str := "http".data
  customUrls : List CustomUrlCfg := []
  jobId : Option Str := none
  onProgress : Bool := false

/-- The input argument of `check`: a string, an array, or anything else. -/
inductive CheckInput
  | str (s : Str)
  | arr (l : List ProxyRaw)
  | other

/-- Errors thrown by `check`, one constructor per throw site. -/
inductive CheckError
  | validationType (t : Str)
  | customUrlMissing (i : Nat)
  | customUrlNotString (i : Nat)
  | invalidInput
  | emptyInput
  | ingest (e : PError)
  | remote (status : Nat) (body : Str)
  | protocol
  | remoteResult (status : Nat)
  | jsonDecode
deriving DecidableEq

/-- Observable events of one `check` invocation. -/
inductive Event
  | submitSent
  | submitResponded
  | wsOpened
  | wsClosed
deriving DecidableEq

/-- `allowedTypes` (src/lib/sdk.js line 75). -/
def allowedTypes : List Str := ["http".data, "socks4".data, "socks5".data]

/-- The `customUrls.forEach` validation (src/lib/sdk.js lines 85-92):
a falsy `url` (absent, empty string, zero) is reported as missing, a
truthy non-string as not-a-string, indexed from the given offset. -/
def validateCustomUrls : List CustomUrlCfg → Nat → Option CheckError
  | [], _ => none
  | c :: rest, i =>
    match c.url with
    | none => some (.customUrlMissing i)
    | some (.num n) =>
      if n = 0 then some (.customUrlMissing i) else some (.customUrlNotString i)
    | some (.str s) =>
      if s.isEmpty then some (.customUrlMissing i) else validateCustomUrls rest (i + 1)

/-- The input-handling stage of `check` (src/lib/sdk.js lines 95-106):
for a string, `parseProxies` is called inside a try/catch whose catch
replaces *any* ingestion failure by the one-element list `[input]`; an
array is ingested with no catch; any other shape throws. -/
def checkIngest (input : CheckInput) (env : Env) : Except CheckError (List (Option Str)) :=
  match input with
  | .str s =>
    match parseProxies (.strv s) env with
    | .ok ps => .ok ps
    | .error _ => .ok [some s]
  | .arr l =>
    match parseProxies (.arr l) env with
    | .ok ps => .ok ps
    | .error e => .error (.ingest e)
  | .other => .error .invalidInput

/-- The network/resource event trace of the submission phase: the request
and its awaited response, then — when a progress callback was requested
with a truthy job id — the WebSocket construction, and its unconditional
close in the `finally` block. -/
def netEvents (wsOpen : Bool) : List Event :=
  [Event.submitSent, Event.submitResponded] ++
    (if wsOpen then [Event.wsOpened] else []) ++
    (if wsOpen then [Event.wsClosed] else [])

/-- The value produced inside the try block (src/lib/sdk.js lines
148-178): remote error on a non-ok submission, protocol error on a falsy
`result_url`, remote error on a non-ok result fetch, a decode failure
while reading the result body, else the assembled result object. -/
def netOutcome (env : Env) : Except CheckError CheckResult :=
  if env.submitOk = false then .error (.remote env.submitStatus env.submitBody)
  else if truthyStrOpt env.submitJson.result_url = false then .error .protocol
  else if env.resultOk = false then .error (.remoteResult env.resultStatus)
  else if env.resultJsonOk = false then .error .jsonDecode
  else .ok (buildResult env.resultJson env.submitJson)

/-- `ClearProxy.check` (src/lib/sdk.js lines 60-184): derive the effective
job id (line 70-73), validate `type` (75-78) and `customUrls` (81-93),
ingest (95-110), then run the submission protocol.  The WebSocket is
constructed only after `await fetch` has returned (line 112 versus 132),
and the `finally` block closes it on every exit path of the try. -/
def check (input : CheckInput) (opts : CheckOptions) (env : Env) :
    List Event × Except CheckError CheckResult :=
  if (allowedTypes.contains opts.type) = false then
    ([], .error (.validationType opts.type))
  else
    match validateCustomUrls opts.customUrls 0 with
    | some e => ([], .error e)
    | none =>
      match checkIngest input env with
      | .error e => ([], .error e)
      | .ok proxies =>
        if proxies.isEmpty then ([], .error .emptyInput)
        else
          (netEvents (opts.onProgress &&
              truthyStrOpt
                (if opts.onProgress && !truthyStrOpt opts.jobId then some env.genJobId
                 else opts.jobId)),
            netOutcome env)

/-- Does the first occurrence of `a` come before an occurrence of `b`? -/
def eventBefore (a b : Event) : List Event → Bool
  | [] => false
  | e :: rest =>
    if e = a then rest.contains b
    else if e = b then false
    else eventBefore a b rest

/-! ### Decidability and helper lemmas -/

instance {ε α : Type} [DecidableEq ε] [DecidableEq α] : DecidableEq (Except ε α) := fun x y =>
  match x, y with
  | .ok a, .ok b =>
    if h : a = b then isTrue (by rw [h]) else isFalse (by intro he; cases he; exact h rfl)
  | .error a, .error b =>
    if h : a = b then isTrue (by rw [h]) else isFalse (by intro he; cases he; exact h rfl)
  | .ok _, .error _ => isFalse (by intro h; cases h)
  | .error _, .ok _ => isFalse (by intro h; cases h)

/-- A list with a non-empty left part is non-empty. -/
theorem isEmpty_append_left_ne {l₁ l₂ : Str} (h : l₁ ≠ []) : (l₁ ++ l₂).isEmpty = false := by
  cases l₁ with
  | nil => exact absurd rfl h
  | cons a t => rfl

/-- `ciStarts` holds on an appended string whose left part lowercases to
the pattern. -/
theorem ciStarts_of_map_eq {pre rest pat : Str} (h : pre.map Char.toLower = pat) :
    ciStarts pat (pre ++ rest) = true := by
  have hl : pat.length ≤ pre.length := by
    rw [← h, List.length_map]
  unfold ciStarts
  rw [List.take_append_of_le_length hl]
  have hlen : pre.length = pat.length := by rw [← h, List.length_map]
  rw [← hlen, List.take_length, h]
  simp

/-- Evaluating `ciStarts` on an appended string when the pattern is no
longer than the left part. -/
theorem ciStarts_eval_of_le {pre rest pat : Str} (h : pat.length ≤ pre.length) :
    ciStarts pat (pre ++ rest) = ((pre.map Char.toLower).take pat.length == pat) := by
  unfold ciStarts
  rw [List.take_append_of_le_length h, List.map_take]

/-- The submission-phase trace of `check` is either empty (an early throw)
or exactly `netEvents w` for some WebSocket flag `w`. -/
theorem check_trace_shape (input : CheckInput) (opts : CheckOptions) (env : Env) :
    (check input opts env).1 = [] ∨ ∃ w, (check input opts env).1 = netEvents w := by
  unfold check
  split
  · exact Or.inl rfl
  · split
    · exact Or.inl rfl
    · split
      · exact Or.inl rfl
      · split
        · exact Or.inl rfl
        · exact Or.inr ⟨_, rfl⟩

/-! ### The claims -/

/-- The three supported output formats of the Renderer. -/
def renderFormats : List Str := ["json".data, "txt".data, "yaml".data]

/-- Claim C1, counterexample: `xml` is not a supported format, yet with
`simple = true` the renderer does not fail with `UnsupportedFormatError` —
it falls through to the newline-join fallback and succeeds (here on the
empty verdict list, returning the empty output). -/
theorem C1_counterexample :
    "xml".data ∉ renderFormats ∧ formatOutput [] "xml".data true = .ok [] :=
  ⟨by decide, by decide⟩

/-- Claim C1, amended: for every verdict list and every format string
outside json/txt/yaml, `render` fails with `UnsupportedFormatError` when
`simple = false`; when `simple = true` the unknown format falls back to
the newline-joined simple projection and the call succeeds. -/
theorem C1_amended_theorem :
    ∀ (proxies : List FVal) (format : Str), format ∉ renderFormats →
      formatOutput proxies format false = .error (.unsupportedFormat format) ∧
      ∃ out, formatOutput proxies format true = .ok out := by
  intro ps fmt h
  simp only [renderFormats, List.mem_cons, List.not_mem_nil, or_false, not_or] at h
  obtain ⟨hj, ht, hy⟩ := h
  refine ⟨?_, ?_⟩
  · simp only [formatOutput, Bool.false_eq_true, if_false, if_neg hj, if_neg hy, if_neg ht]
  · simp only [formatOutput, if_true, if_neg hj, if_neg hy, if_neg ht]
    exact ⟨_, rfl⟩

/-- Claim C1, witness: the amended theorem applied at the unsupported
format `xml` and the empty verdict list. -/
theorem C1_witness :
    formatOutput [] "xml".data false = .error (.unsupportedFormat "xml".data) ∧
    ∃ out, formatOutput [] "xml".data true = .ok out :=
  C1_amended_theorem [] "xml".data (by decide)

/-- Environment for claim C5: `proxies.json` exists but holds content the
JSON parser rejects; the remote side is set up to answer successfully. -/
def envC5 : Env :=
  { fs := fun p => if p = "proxies.json".data then some "[oops".data else none,
    submitJson := { result_url := some "https://api.clearproxy.io/r/1".data } }

/-- Claim C5, counterexample: ingestion of the existing but undecodable
file raises `ParseError`, yet `check` swallows it — the ingestion stage
falls back to treating the path string as a single inline token and the
whole call returns a successful result instead of surfacing the error. -/
theorem C5_counterexample :
    parseProxies (.strv "proxies.json".data) envC5 = .error (.parse .json) ∧
    checkIngest (.str "proxies.json".data) envC5 = .ok [some "proxies.json".data] ∧
    (check (.str "proxies.json".data) {} envC5).2 = .ok (buildResult {} envC5.submitJson) :=
  ⟨by decide, by decide, by decide⟩

/-- Claim C5, amended: every ingestion failure on a string input —
`ParseError` on an existing undecodable file included — is caught inside
`check`, which silently falls back to the one-element token list holding
the raw input string; the error does not surface to the caller. -/
theorem C5_amended_theorem :
    ∀ (s : Str) (env : Env) (e : PError),
      parseProxies (.strv s) env = .error e →
      checkIngest (.str s) env = .ok [some s] := by
  intro s env e h
  simp only [checkIngest, h]

/-- Claim C5, witness: the amended theorem applied to the undecodable
`proxies.json` environment. -/
theorem C5_witness :
    checkIngest (.str "proxies.json".data) envC5 = .ok [some "proxies.json".data] :=
  C5_amended_theorem "proxies.json".data envC5 (.parse .json) (by decide)

/-- Claim C6: whenever the ingestion stage of `check` produces an empty
token list (and the pre-network validations pass), `check` fails with
`EmptyInputError` (`"No proxies found in input"`) instead of proceeding
with an empty list. -/
theorem C6_theorem :
    ∀ (input : CheckInput) (opts : CheckOptions) (env : Env),
      allowedTypes.contains opts.type = true →
      validateCustomUrls opts.customUrls 0 = none →
      checkIngest input env = .ok [] →
      (check input opts env).2 = .error .emptyInput := by
  intro input opts env h1 h2 h3
  simp only [check, h1, h2, h3, List.isEmpty_nil, if_true, Bool.true_eq_false, if_false]

/-- Claim C6, witness: the empty array input ingests to the empty list and
`check` rejects it with `EmptyInputError`. -/
theorem C6_witness :
    checkIngest (.arr []) {} = .ok [] ∧ (check (.arr []) {} {}).2 = .error .emptyInput :=
  ⟨by decide, C6_theorem (.arr []) {} {} (by decide) (by decide) (by decide)⟩

/-- Claim C7 (code bug): with input absent, an *unavailable* stdin stream
does fail with `NotFoundError`, but an available-yet-*empty* stream slips
past the `if (stdin)` guard into the file-path code, where
`path.resolve(cwd, undefined)` throws a generic `TypeError` — not the
`NotFoundError` the specification states. -/
theorem C7_theorem :
    parseProxies .absent { stdin := some [] } = .error .typeError ∧
    isNotFoundPE .typeError = false ∧
    parseProxies .absent { stdin := none } = .error (.notFound none) :=
  ⟨by decide, rfl, by decide⟩

/-- A verdict with status `working`, as in the two-verdict scenario. -/
def vWorking : Verdict := { status := some (.str "working".data) }

/-- A verdict with status `failed`, as in the two-verdict scenario. -/
def vFailed : Verdict := { status := some (.str "failed".data) }

/-- The scenario payload of claim C8: two verdicts, one working and one
failed. -/
def payloadC8 : ResultPayload := { proxies := some [vWorking, vFailed] }

/-- Claim C8: for every result payload, the `working` view is an
order-preserving sublist of `proxies` holding exactly the verdicts whose
status is the string `working`, and symmetrically for `failed`; on the
two-verdict scenario payload both views have length one. -/
theorem C8_theorem :
    (∀ (resultData : ResultPayload) (data : SubmitResponse),
        (buildResult resultData data).working.Sublist (buildResult resultData data).proxies ∧
        (buildResult resultData data).failed.Sublist (buildResult resultData data).proxies ∧
        (∀ v, v ∈ (buildResult resultData data).working ↔
            v ∈ (buildResult resultData data).proxies ∧
              v.status = some (.str "working".data)) ∧
        (∀ v, v ∈ (buildResult resultData data).failed ↔
            v ∈ (buildResult resultData data).proxies ∧
              v.status = some (.str "failed".data))) ∧
    (buildResult payloadC8 {}).working.length = 1 ∧
    (buildResult payloadC8 {}).failed.length = 1 := by
  refine ⟨?_, by decide, by decide⟩
  intro rd data
  cases hp : rd.proxies with
  | none =>
    simp [buildResult, hp]
  | some l =>
    simp only [buildResult, hp, Option.map_some', Option.getD_some]
    refine ⟨List.filter_sublist l, List.filter_sublist l, ?_, ?_⟩
    · intro v
      rw [List.mem_filter]
      simp [isStatus]
    · intro v
      rw [List.mem_filter]
      simp [isStatus]

/-- Claim C10: `summarizeCustomUrls` returns null when the result carries
no custom validation; when a validation object is present but dispatches
to zero per-URL entries, the summary reports the literal rate `0.00%` and
zero URLs. -/
theorem C10_theorem :
    (∀ r : CheckResult, r.custom_url_validation = none → getCustomUrlSummary r = none) ∧
    (∀ (r : CheckResult) (c : CuvShape), r.custom_url_validation = some c →
      perUrlResults c = [] →
      (getCustomUrlSummary r).map (fun s => s.overall_success_rate) = some "0.00%".data ∧
      (getCustomUrlSummary r).map (fun s => s.total_urls) = some 0) := by
  constructor
  · intro r h
    simp [getCustomUrlSummary, h]
  · intro r c h he
    simp [getCustomUrlSummary, h, he]

/-- Claim C10, witness: a result with no validation blob summarizes to
null; a result whose blob is an object with neither `per_url_summary` nor
`results` (zero entries) summarizes to rate `0.00%` over zero URLs. -/
theorem C10_witness :
    getCustomUrlSummary {} = none ∧
    (getCustomUrlSummary { custom_url_validation := some (.obj none none) }).map
        (fun s => s.overall_success_rate) = some "0.00%".data ∧
    (getCustomUrlSummary { custom_url_validation := some (.obj none none) }).map
        (fun s => s.total_urls) = some 0 :=
  ⟨C10_theorem.1 {} rfl,
   (C10_theorem.2 { custom_url_validation := some (.obj none none) } (.obj none none) rfl rfl).1,
   (C10_theorem.2 { custom_url_validation := some (.obj none none) } (.obj none none) rfl rfl).2⟩

/-- Input used for the progress-channel claims: one inline proxy. -/
def inputC34 : CheckInput := .arr [ProxyRaw.str "1.1.1.1:8080".data]

/-- Options used for the progress-channel claims: a progress callback is
requested, no explicit job id (one is generated). -/
def optsC34 : CheckOptions := { onProgress := true }

/-- Environment used for the progress-channel claims: the remote service
answers the submission and the result fetch successfully. -/
def envC34 : Env :=
  { submitJson := { result_url := some "https://api.clearproxy.io/r/1".data } }

/-- Claim C3, counterexample: in a run with a requested progress callback
the subscription *is* opened, but its connection attempt does not precede
the submission response — the response arrival strictly precedes the
WebSocket construction, because `await fetch` completes before the
`new WebSocket` line runs. -/
theorem C3_counterexample :
    Event.wsOpened ∈ (check inputC34 optsC34 envC34).1 ∧
    eventBefore Event.wsOpened Event.submitResponded (check inputC34 optsC34 envC34).1 = false ∧
    eventBefore Event.submitResponded Event.wsOpened (check inputC34 optsC34 envC34).1 = true :=
  ⟨by decide, by decide, by decide⟩

/-- Claim C3, amended: the progress subscription is opened sequentially
*after* the submission response has arrived — whenever the subscription is
opened at all, the submission-response event precedes the open event in
the trace. -/
theorem C3_amended_theorem :
    ∀ (input : CheckInput) (opts : CheckOptions) (env : Env),
      Event.wsOpened ∈ (check input opts env).1 →
      eventBefore Event.submitResponded Event.wsOpened (check input opts env).1 = true := by
  intro input opts env h
  rcases check_trace_shape input opts env with hs | ⟨w, hs⟩
  · rw [hs] at h
    exact absurd h (List.not_mem_nil _)
  · rw [hs] at h ⊢
    cases w
    · exact absurd h (by decide)
    · decide

/-- Claim C3, witness: the amended ordering on the concrete
progress-requested run. -/
theorem C3_witness :
    eventBefore Event.submitResponded Event.wsOpened (check inputC34 optsC34 envC34).1 = true :=
  C3_amended_theorem inputC34 optsC34 envC34 (by decide)

/-- Claim C4: on every run in which the progress subscription was opened —
whatever the remote service answers, i.e. on the success, remote-error,
protocol-error and result-decode-failure exit paths alike — the
subscription is closed exactly once, and that close is the last observable
event before control returns. -/
theorem C4_theorem :
    ∀ (input : CheckInput) (opts : CheckOptions) (env : Env),
      Event.wsOpened ∈ (check input opts env).1 →
      (check input opts env).1.count Event.wsClosed = 1 ∧
      (check input opts env).1.getLast? = some Event.wsClosed := by
  intro input opts env h
  rcases check_trace_shape input opts env with hs | ⟨w, hs⟩
  · rw [hs] at h
    exact absurd h (List.not_mem_nil _)
  · rw [hs] at h ⊢
    cases w
    · exact absurd h (by decide)
    · exact ⟨by decide, by decide⟩

/-- Claim C4, witness: exactly one close, in last position, on the
concrete progress-requested run. -/
theorem C4_witness :
    (check inputC34 optsC34 envC34).1.count Event.wsClosed = 1 ∧
    (check inputC34 optsC34 envC34).1.getLast? = some Event.wsClosed :=
  C4_theorem inputC34 optsC34 envC34 (by decide)

/-- The four scheme prefixes recognized by the Normalizer, in the order
the embedded regex alternation tries them. -/
def schemePrefixes : List Str :=
  ["http://".data, "https://".data, "socks4://".data, "socks5://".data]

/-- String normalization factors through the scheme strip: a non-empty
string whose strip is known normalizes to the trim of that strip. -/
theorem norm_str_of_strip {s t : Str} (hne : s ≠ []) (hstrip : stripScheme s = t) :
    normalizeProxy (.str s) = some (trim t) := by
  have hie : s.isEmpty = false := by
    cases s with
    | nil => exact absurd rfl hne
    | cons a l => rfl
  simp only [normalizeProxy, hie, Bool.false_eq_true, if_false, hstrip]

/-- The scheme strip removes exactly the leading prefix from a string that
starts (case-insensitively) with one of the four schemes. -/
theorem stripScheme_append {pre rest : Str} (h : pre.map Char.toLower ∈ schemePrefixes) :
    stripScheme (pre ++ rest) = rest := by
  simp only [schemePrefixes, List.mem_cons, List.not_mem_nil, or_false] at h
  rcases h with h | h | h | h
  · have hl : pre.length = 7 := by
      have h2 := congrArg List.length h
      rw [List.length_map] at h2
      exact h2.trans (by decide)
    unfold stripScheme
    rw [if_pos (ciStarts_of_map_eq h)]
    exact List.drop_left' hl
  · have hl : pre.length = 8 := by
      have h2 := congrArg List.length h
      rw [List.length_map] at h2
      exact h2.trans (by decide)
    have e1 : ciStarts "http://".data (pre ++ rest) = false := by
      rw [@ciStarts_eval_of_le pre rest "http://".data (by rw [hl]; decide), h]
      decide
    unfold stripScheme
    rw [if_neg (by simp [e1]), if_pos (ciStarts_of_map_eq h)]
    exact List.drop_left' hl
  · have hl : pre.length = 9 := by
      have h2 := congrArg List.length h
      rw [List.length_map] at h2
      exact h2.trans (by decide)
    have e1 : ciStarts "http://".data (pre ++ rest) = false := by
      rw [@ciStarts_eval_of_le pre rest "http://".data (by rw [hl]; decide), h]
      decide
    have e2 : ciStarts "https://".data (pre ++ rest) = false := by
      rw [@ciStarts_eval_of_le pre rest "https://".data (by rw [hl]; decide), h]
      decide
    unfold stripScheme
    rw [if_neg (by simp [e1]), if_neg (by simp [e2]), if_pos (ciStarts_of_map_eq h)]
    exact List.drop_left' hl
  · have hl : pre.length = 9 := by
      have h2 := congrArg List.length h
      rw [List.length_map] at h2
      exact h2.trans (by decide)
    have e1 : ciStarts "http://".data (pre ++ rest) = false := by
      rw [@ciStarts_eval_of_le pre rest "http://".data (by rw [hl]; decide), h]
      decide
    have e2 : ciStarts "https://".data (pre ++ rest) = false := by
      rw [@ciStarts_eval_of_le pre rest "https://".data (by rw [hl]; decide), h]
      decide
    have e3 : ciStarts "socks4://".data (pre ++ rest) = false := by
      rw [@ciStarts_eval_of_le pre rest "socks4://".data (by rw [hl]; decide), h]
      decide
    unfold stripScheme
    rw [if_neg (by simp [e1]), if_neg (by simp [e2]), if_neg (by simp [e3]),
      if_pos (ciStarts_of_map_eq h)]
    exact List.drop_left' hl

/-- Claim C2, counterexample: the raw string `" http://1.2.3.4:8080"`
(leading whitespace before the scheme) normalizes to a token that still
carries the `http://` scheme prefix — the anchored regex runs before the
trim, so the prefix survives and the "never carries a scheme prefix"
invariant fails. -/
theorem C2_counterexample :
    normalizeProxy (.str " http://1.2.3.4:8080".data) = some "http://1.2.3.4:8080".data ∧
    startsWithScheme "http://1.2.3.4:8080".data = true :=
  ⟨by decide, by decide⟩

/-- Claim C2, amended: `normalize` strips one scheme prefix only when it
sits at the very start of the raw string (case-insensitively), then trims
and returns the remainder; a string with no scheme at position 0 is merely
trimmed — so a token can still carry a scheme prefix, e.g. after leading
whitespace or a doubled scheme. -/
theorem C2_amended_theorem :
    (∀ (pre rest : Str), pre.map Char.toLower ∈ schemePrefixes →
        normalizeProxy (.str (pre ++ rest)) = some (trim rest)) ∧
    (∀ s : Str, s ≠ [] → startsWithScheme s = false →
        normalizeProxy (.str s) = some (trim s)) := by
  constructor
  · intro pre rest h
    have hne : pre ≠ [] := by
      intro he
      rw [he] at h
      exact absurd h (by decide)
    exact norm_str_of_strip (fun hc => hne (List.append_eq_nil.mp hc).1) (stripScheme_append h)
  · intro s hne hsp
    simp only [startsWithScheme, Bool.or_eq_false_iff] at hsp
    obtain ⟨⟨⟨e1, e2⟩, e3⟩, e4⟩ := hsp
    have hstrip : stripScheme s = s := by
      unfold stripScheme
      rw [if_neg (by simp [e1]), if_neg (by simp [e2]), if_neg (by simp [e3]),
        if_neg (by simp [e4])]
    exact norm_str_of_strip hne hstrip

/-- Claim C2, witness: the amended theorem applied to an upper-case
`SOCKS5://` prefix and to a scheme-free token. -/
theorem C2_witness :
    normalizeProxy (.str ("SOCKS5://".data ++ "1.2.3.4:1080".data)) =
      some (trim "1.2.3.4:1080".data) ∧
    normalizeProxy (.str "1.2.3.4:1080".data) = some (trim "1.2.3.4:1080".data) :=
  ⟨C2_amended_theorem.1 "SOCKS5://".data "1.2.3.4:1080".data (by decide),
   C2_amended_theorem.2 "1.2.3.4:1080".data (by decide) (by decide)⟩

/-- The structured record of the C9 counterexample: it carries a host and
carries a port, but the port is the (falsy) number 0. -/
def r9 : StructuredProxy := { host := some (.str "h".data), port := some (.num 0) }

/-- Claim C9, counterexample: a structured record carrying `host` and
`port` (port 0) with no credentials does not normalize to `"h:0"` — the
JS truthiness test `p.host && p.port` treats the carried 0 as absent and
the Normalizer returns null. -/
theorem C9_counterexample :
    r9.host.isSome = true ∧ r9.port.isSome = true ∧
    r9.username = none ∧ r9.password = none ∧
    normalizeProxy (.record r9) = none ∧
    normalizeProxy (.record r9) ≠ some "h:0".data :=
  ⟨rfl, rfl, rfl, rfl, by decide, by decide⟩

/-- Claim C9, amended: for every structured record whose `host` and `port`
are JS-truthy (present and neither the empty string nor 0), `normalize`
renders `host:port`, prefixed with `username:password@` exactly when both
credentials are JS-truthy as well; a carried-but-falsy field counts as
absent. -/
theorem C9_amended_theorem :
    ∀ p : StructuredProxy, truthyJ p.host = true → truthyJ p.port = true →
      (truthyJ p.username = true → truthyJ p.password = true →
        normalizeProxy (.record p) =
          some (jsShowU p.username ++ ":".data ++ jsShowU p.password ++ "@".data ++
            (jsShowU p.host ++ ":".data ++ jsShowU p.port))) ∧
      (¬(truthyJ p.username = true ∧ truthyJ p.password = true) →
        normalizeProxy (.record p) =
          some (jsShowU p.host ++ ":".data ++ jsShowU p.port)) := by
  intro p hh hp
  constructor
  · intro hu hw
    simp [normalizeProxy, hh, hp, hu, hw]
  · intro hnc
    have hcf : (truthyJ p.username && truthyJ p.password) = false := by
      cases h1 : truthyJ p.username <;> cases h2 : truthyJ p.password <;> simp_all
    simp [normalizeProxy, hh, hp, hcf]

/-- The credentialed record of the C9 witness. -/
def r9w : StructuredProxy :=
  { host := some (.str "h".data), port := some (.num 1),
    username := some (.str "u".data), password := some (.str "p".data) }

/-- The credential-free record of the C9 witness. -/
def r9n : StructuredProxy := { host := some (.str "h".data), port := some (.num 1) }

/-- Claim C9, witness: the amended theorem applied to a credentialed and a
credential-free record with truthy host and port. -/
theorem C9_witness :
    normalizeProxy (.record r9w) = some "u:p@h:1".data ∧
    normalizeProxy (.record r9n) = some "h:1".data :=
  ⟨((C9_amended_theorem r9w (by decide) (by decide)).1 (by decide) (by decide)).trans
      (by decide),
   ((C9_amended_theorem r9n (by decide) (by decide)).2 (by decide)).trans (by decide)⟩

end ClearProxy
